import Mathlib

/-!
Verification of the tagifai pipeline (`src/pipelines/main.py`).

This file is a shallow embedding of the pipeline's operations:

* `optimize` (main.py lines 120-158): hyperparameter search over a study;
  best-trial selection and writing the merged arguments back.
* `train_model` / `create_run` (main.py lines 62-115): logging the artifact
  bundle to the tracking store and conditionally updating the run pointer.
* `load_artifacts` (main.py lines 161-194): reconstructing an artifact bundle
  from the store, with run-id fallback to the pointer file.
* `predict_tag` (main.py lines 197-210): run-id resolution for prediction.
* `elt_data` (main.py lines 38-57): join, label filter, train/test split.

External collaborators (the `src.utils`, `src.pipelines.train/data/predict`
modules, and the optuna/mlflow libraries) are not part of the provided source;
where their behaviour decides a property they are modelled from the spec, and
every such definition is marked `Modelled from the spec:` in its doc comment.
-/

namespace Tagifai

/-- Scalar configuration values: the flat JSON values an `args.json` file may
hold (numbers, strings, booleans).  Numbers are modelled as rationals. -/
inductive Val where
  | num (x : Rat)
  | str (s : String)
  | boolean (b : Bool)
  deriving DecidableEq, Repr

/-- An `ArgumentSet` is a flat name-to-value mapping, in insertion order, as a
Python dict of JSON scalars (`Namespace(**utils.load_dict(args_fp))`). -/
abbrev ArgumentSet := List (String × Val)

/-- First-match association-list lookup; the embedding of Python dict lookup
for dictionaries represented as ordered key-value lists. -/
def lookupKey : List (String × Val) → String → Option Val
  | [], _ => none
  | (k, v) :: rest, key => if k = key then some v else lookupKey rest key

/-- Embedding of the Python dict merge `{**base, **override}` (main.py line
153): keys of `base` in order with values overridden by `override` on shared
keys, followed by the keys only `override` has, in `override`'s order. -/
def mergeArgs (base override : ArgumentSet) : ArgumentSet :=
  base.map (fun p => (p.1, (lookupKey override p.1).getD p.2))
    ++ override.filter (fun p => (lookupKey base p.1).isNone)

/-- One optuna trial as the study records it: its number (creation order), the
sampled parameter delta, and its terminal state — `some v` for a COMPLETED
trial with objective value `v`, `none` for a PRUNED trial.

Modelled from the spec: `train.objective` (module `src.pipelines.train`, not
under `src/`) returns the f1 ranking metric as the trial's objective value and
records the same value as the user attribute named `f1`, so a completed
trial's `value` is its ranking-metric (f1) value. -/
structure Trial where
  number : Nat
  params : ArgumentSet
  value : Option Rat
  deriving DecidableEq, Repr

/-- The COMPLETED (non-pruned) trials of a study, in trial-number order. -/
def completedTrials (ts : List Trial) : List Trial :=
  ts.filter (fun t => t.value.isSome)

/-- Objective value of a trial (its f1 ranking metric); only ever used on
completed trials, where the default never fires. -/
def trialVal (t : Trial) : Rat :=
  t.value.getD 0

/-- Embedding of optuna's `study.best_trial` for a maximization study: the
maximum of the completed trials' values, the first (lowest trial number)
winning ties, `none` when no trial completed (where optuna raises). -/
def bestTrial (ts : List Trial) : Option Trial :=
  List.argmax trialVal (completedTrials ts)

/-- Errors an `optimize` invocation can surface.  `configurationError` is the
spec's ConfigurationError taxon (the embedded code never produces it: main.py
does not validate `num_trials`); `noCompletedTrials` models the exception the
code raises after a study with no completed trial (the empty-frame sort at
main.py line 152 / `study.best_trial` at line 153). -/
inductive OptError where
  | configurationError
  | noCompletedTrials
  deriving DecidableEq, Repr

/-- Embedding of `optimize` (main.py lines 120-158).  The study's would-be
trial sequence is the input `ts`; the study runs the first
`numTrials.toNat` of them (non-positive `numTrials` runs no trial — there is
no validation in the code).  The result is the merged arguments
`{**args.__dict__, **study.best_trial.params}` that line 154 writes back to
`args_fp`, or the error raised when no trial completed. -/
def optimize (base : ArgumentSet) (ts : List Trial) (numTrials : Int) :
    Except OptError ArgumentSet :=
  let ran := ts.take numTrials.toNat
  match bestTrial ran with
  | none => Except.error OptError.noCompletedTrials
  | some b => Except.ok (mergeArgs base b.params)

/-- Insertion of a rational into a sorted list (helper for `sortRats`). -/
def insertSorted (x : Rat) : List Rat → List Rat
  | [] => [x]
  | y :: ys => if x ≤ y then x :: y :: ys else y :: insertSorted x ys

/-- Insertion sort of a list of rationals, ascending. -/
def sortRats (l : List Rat) : List Rat :=
  l.foldr insertSorted []

/-- Median with linear interpolation, as `numpy.percentile(xs, 50)` computes
it: the middle element of the sorted list for odd length, the mean of the two
middle elements for even length. -/
def median (l : List Rat) : Rat :=
  let s := sortRats l
  let n := s.length
  if n % 2 = 1 then s.getD (n / 2) 0
  else (s.getD (n / 2 - 1) 0 + s.getD (n / 2) 0) / 2

/-- Intermediate values reported at step `step` across the completed trials'
report histories (a history is the list of intermediate values of one trial,
position = step); trials with no report at that step are skipped. -/
def stepVals (completed : List (List Rat)) (step : Nat) : List Rat :=
  completed.filterMap fun h => h[step]?

/-- Modelled from the spec: the decision rule of the median pruner that
main.py line 137 configures with `n_startup_trials=5, n_warmup_steps=5` (the
pruner's internals are optuna library code, described in spec section 4.2).
`completed` holds the report histories of the previously completed trials;
`history` the current trial's reports so far (its last step is
`history.length - 1`, reports being made at consecutive steps from 0).  For a
maximization study the trial is pruned exactly when the startup and warm-up
guards are passed and its latest value is strictly below the median of the
completed trials' values at the same step. -/
def shouldPrune (nStartup nWarmup : Nat) (completed : List (List Rat))
    (history : List Rat) : Bool :=
  match history.getLast? with
  | none => false
  | some score =>
    if completed.length < nStartup then false
    else if history.length - 1 < nWarmup then false
    else
      let vals := stepVals completed (history.length - 1)
      if vals.isEmpty then false
      else decide (score < median vals)

/-- Label encoder state.  Modelled from the spec: `data.LabelEncoder` (module
`src.pipelines.data`, not under `src/`) is the class-name ↔ index mapping that
is saved to and loaded from `label_encoder.json`. -/
structure LabelEncoder where
  classes : List String
  deriving DecidableEq, Repr

/-- Feature vectorizer state.  Modelled from the spec: the fitted vectorizer
(built by `src.pipelines.train`, not under `src/`) that is pickled to
`vectorizer.pkl`. -/
structure Vectorizer where
  vocabulary : List String
  deriving DecidableEq, Repr

/-- Trained model object.  Modelled from the spec: the fitted SGD classifier
(built by `src.pipelines.train`, not under `src/`) logged through the model
registration channel. -/
structure SGDModel where
  weights : List Rat
  deriving DecidableEq, Repr

/-- Performance report: the `overall` precision/recall/f1 section that
main.py logs as metrics (lines 91-93) and saves as `performance.json`. -/
structure Perf where
  overall_precision : Rat
  overall_recall : Rat
  overall_f1 : Rat
  deriving DecidableEq, Repr

/-- The artifact bundle of one run: the five members produced by
`train.train` and persisted by `train_model` (main.py lines 97-108). -/
structure Bundle where
  args : ArgumentSet
  label_encoder : LabelEncoder
  vectorizer : Vectorizer
  model : SGDModel
  performance : Perf
  deriving DecidableEq, Repr

/-- A serialized artifact as it sits in the tracking store.  Modelled from
the spec: each bundle member has its own serialization (`utils.save_dict`
JSON, `LabelEncoder.save` JSON, `joblib.dump` pickles — the serializing
modules are not under `src/`); `corrupt` stands for bytes no deserializer
accepts. -/
inductive Blob where
  | jsonArgs (a : ArgumentSet)
  | jsonLE (e : LabelEncoder)
  | pickledVec (v : Vectorizer)
  | pickledModel (m : SGDModel)
  | jsonPerf (p : Perf)
  | corrupt
  deriving DecidableEq, Repr

/-- Modelled from the spec: `utils.load_dict` on an args file (`src.utils` is
not under `src/`) — deserialization succeeds exactly on a well-formed args
serialization. -/
def parseArgs : Blob → Option ArgumentSet
  | Blob.jsonArgs a => some a
  | _ => none

/-- Modelled from the spec: `data.LabelEncoder.load` — succeeds exactly on a
well-formed label-encoder serialization. -/
def parseLE : Blob → Option LabelEncoder
  | Blob.jsonLE e => some e
  | _ => none

/-- Modelled from the spec: `joblib.load` on a pickled vectorizer — succeeds
exactly on a well-formed vectorizer pickle. -/
def parseVec : Blob → Option Vectorizer
  | Blob.pickledVec v => some v
  | _ => none

/-- Modelled from the spec: `joblib.load` on a pickled model — succeeds
exactly on a well-formed model pickle. -/
def parseModel : Blob → Option SGDModel
  | Blob.pickledModel m => some m
  | _ => none

/-- Modelled from the spec: `utils.load_dict` on a performance file —
succeeds exactly on a well-formed performance serialization. -/
def parsePerf : Blob → Option Perf
  | Blob.jsonPerf p => some p
  | _ => none

/-- The artifacts of one run in the tracking store, keyed by
(artifact sub-path, file name). -/
abbrev RunRecord := List ((String × String) × Blob)

/-- The tracking store: run records keyed by run id, most recent first. -/
abbrev MlflowStore := List (String × RunRecord)

/-- Contents of the `config/` directory that main.py writes: the run pointer
file `run_id.txt` (main.py line 112) and the performance snapshot
`performance.json` (lines 113-115); `none` means the file does not exist. -/
structure ConfigState where
  runIdFile : Option String
  perfFile : Option Perf
  deriving DecidableEq, Repr

/-- The state `train_model` / `load_artifacts` / `predict_tag` act on: the
tracking store plus the config directory. -/
structure TrainState where
  store : MlflowStore
  config : ConfigState
  deriving DecidableEq, Repr

/-- First-match lookup of a blob in a run record by sub-path and file name. -/
def getBlob : RunRecord → String → String → Option Blob
  | [], _, _ => none
  | (k, bl) :: rest, d, n => if k = (d, n) then some bl else getBlob rest d n

/-- First-match lookup of a run record in the store by run id. -/
def lookupRun : MlflowStore → String → Option RunRecord
  | [], _ => none
  | (k, r) :: rest, rid => if k = rid then some r else lookupRun rest rid

/-- The artifact layout main.py lines 97-108 logs for one run: the four
artifacts logged with `mlflow.log_artifacts(dp, artifact_path="artifacts")`
(args.json, label_encoder.json, vectorizer.pkl, performance.json) and the
model logged with `mlflow.sklearn.log_model(model, "model")`, which the
loader reads back as `model/model.pkl`. -/
def runArtifacts (b : Bundle) : RunRecord :=
  [ (("artifacts", "args.json"), Blob.jsonArgs b.args),
    (("artifacts", "label_encoder.json"), Blob.jsonLE b.label_encoder),
    (("artifacts", "vectorizer.pkl"), Blob.pickledVec b.vectorizer),
    (("artifacts", "performance.json"), Blob.jsonPerf b.performance),
    (("model", "model.pkl"), Blob.pickledModel b.model) ]

/-- The run-creation part of `train_model` (main.py lines 82-108, inside
`mlflow.start_run`): a fresh run id `rid` is allocated by the tracking store
and the bundle's artifacts are logged under it.  The config directory is not
touched here. -/
def create_run (st : TrainState) (b : Bundle) (rid : String) : TrainState :=
  { st with store := (rid, runArtifacts b) :: st.store }

/-- Embedding of `train_model` (main.py lines 62-115), with the training
itself (`train.train`, not under `src/`) abstracted into the bundle `b` it
produced and the run id `rid` the tracking store allocated: the run is
created, then — only when `test_run` is false — the run pointer file is set
to `rid` and the performance snapshot to the run's report (lines 110-115). -/
def train_model (st : TrainState) (b : Bundle) (rid : String)
    (test_run : Bool) : TrainState :=
  let st1 := create_run st b rid
  if test_run then st1
  else { st1 with
         config := { runIdFile := some rid, perfFile := some b.performance } }

/-- Errors surfaced by artifact loading: `notFound` models the spec's
NotFoundError (missing pointer file at main.py line 171, or unknown run id at
line 175); `corruptArtifact` models CorruptArtifactError (a bundle member
missing or failing to deserialize, lines 176-186). -/
inductive LoadError where
  | notFound
  | corruptArtifact
  deriving DecidableEq, Repr

/-- Run-id resolution of main.py lines 170-171 and 205-206: a falsy run id
(`None`, or the empty string) falls back to the contents of the run pointer
file; `none` results when the pointer file itself is missing. -/
def resolveRunId (st : TrainState) (rid? : Option String) : Option String :=
  match rid? with
  | none => st.config.runIdFile
  | some s => if s = "" then st.config.runIdFile else some s

/-- The body of `load_artifacts` after run-id resolution (main.py lines
173-194): download the run's artifacts and deserialize the five bundle
members; any member that is missing or fails to deserialize aborts the load
with `corruptArtifact`, and only a fully populated bundle is ever returned. -/
def loadByRunId (st : TrainState) (rid : String) : Except LoadError Bundle :=
  match lookupRun st.store rid with
  | none => Except.error LoadError.notFound
  | some r =>
    match (getBlob r "artifacts" "args.json").bind parseArgs,
          (getBlob r "artifacts" "vectorizer.pkl").bind parseVec,
          (getBlob r "artifacts" "label_encoder.json").bind parseLE,
          (getBlob r "artifacts" "performance.json").bind parsePerf,
          (getBlob r "model" "model.pkl").bind parseModel with
    | some a, some v, some e, some p, some m =>
      Except.ok { args := a, label_encoder := e, vectorizer := v,
                  model := m, performance := p }
    | _, _, _, _, _ => Except.error LoadError.corruptArtifact

/-- Embedding of `load_artifacts` (main.py lines 161-194): resolve the run id
(falling back to the pointer file), then reconstruct the bundle. -/
def load_artifacts (st : TrainState) (rid? : Option String) :
    Except LoadError Bundle :=
  match resolveRunId st rid? with
  | none => Except.error LoadError.notFound
  | some rid => loadByRunId st rid

/-- Embedding of the run-resolution part of `predict_tag` (main.py lines
197-210): the command resolves a falsy run id through the pointer file itself
(lines 205-206) and then calls `load_artifacts` with the resolved id.  The
final `predict.predict` call (module not under `src/`) only consumes the
returned bundle, so the embedding returns that bundle. -/
def predict_tag (st : TrainState) (rid? : Option String) :
    Except LoadError Bundle :=
  match resolveRunId st rid? with
  | none => Except.error LoadError.notFound
  | some rid => load_artifacts st (some rid)

/-- A row of `projects.csv` (id plus its textual payload). -/
structure ProjRow where
  id : Nat
  description : String
  deriving DecidableEq, Repr

/-- A row of `tags.csv` (id plus an optional tag; `none` is a null tag). -/
structure TagRow where
  id : Nat
  tag : Option String
  deriving DecidableEq, Repr

/-- Embedding of `pd.merge(projects, tags, on="id")` (main.py line 47): the
inner join on `id`, in projects-major order. -/
def mergeOnId (projects : List ProjRow) (tags : List TagRow) :
    List (ProjRow × TagRow) :=
  projects.flatMap fun p =>
    (tags.filter fun t => t.id == p.id).map fun t => (p, t)

/-- The labeled rows of `elt_data` (main.py lines 47-48): the join of
projects and tags on `id`, restricted to rows whose tag is non-null. -/
def labeledRows (projects : List ProjRow) (tags : List TagRow) :
    List (ProjRow × TagRow) :=
  (mergeOnId projects tags).filter fun r => r.2.tag.isSome

/-- Python slice `l[:k]`, with negative indices counted from the end and
clamped at the list's bounds. -/
def sliceTo (l : List α) (k : Int) : List α :=
  if k < 0 then l.take ((l.length : Int) + k).toNat else l.take k.toNat

/-- Python slice `l[k:]`, with negative indices counted from the end and
clamped at the list's bounds. -/
def sliceFrom (l : List α) (k : Int) : List α :=
  if k < 0 then l.drop ((l.length : Int) + k).toNat else l.drop k.toNat

/-- Embedding of the transform half of `elt_data` (main.py lines 46-55): the
labeled rows are split as `train_df = df[:-300]` and `test_df = df[-300:]`;
the pair returned is (training file rows, test file rows). -/
def elt_data (projects : List ProjRow) (tags : List TagRow) :
    List (ProjRow × TagRow) × List (ProjRow × TagRow) :=
  let df := labeledRows projects tags
  (sliceTo df (-300), sliceFrom df (-300))

/-! Concrete sample inputs, used to instantiate the theorems below. -/

/-- A concrete base argument set. -/
def base0 : ArgumentSet := [("analyzer", Val.str "char"), ("alpha", Val.num 1)]

/-- A completed trial with f1 value 7/10. -/
def trial0 : Trial := { number := 0, params := [("alpha", Val.num 2)], value := some (7/10) }

/-- A pruned trial. -/
def trial1 : Trial := { number := 1, params := [("alpha", Val.num 3)], value := none }

/-- A completed trial tying trial0's f1 value. -/
def trial2 : Trial := { number := 2, params := [("lr", Val.num 4)], value := some (7/10) }

/-- A concrete study outcome: two completed trials with equal value around a
pruned one. -/
def ts0 : List Trial := [trial0, trial1, trial2]

/-- Report histories of five completed trials, six steps each, all value 1. -/
def completed0 : List (List Rat) := List.replicate 5 (List.replicate 6 1)

/-- A current trial's report history: six reports, all value 0. -/
def history0 : List Rat := List.replicate 6 0

/-- A concrete artifact bundle. -/
def bundle0 : Bundle :=
  { args := [("alpha", Val.num 2)],
    label_encoder := { classes := ["mlops", "nlp"] },
    vectorizer := { vocabulary := ["pipeline", "text"] },
    model := { weights := [1/2, 3/2] },
    performance := { overall_precision := 4/5, overall_recall := 7/10, overall_f1 := 3/4 } }

/-- The empty state: no runs recorded, no pointer file, no snapshot. -/
def emptyState : TrainState :=
  { store := [], config := { runIdFile := none, perfFile := none } }

/-- The artifacts of `bundle0` with the vectorizer artifact corrupted. -/
def corruptRecord : RunRecord :=
  [ (("artifacts", "args.json"), Blob.jsonArgs bundle0.args),
    (("artifacts", "label_encoder.json"), Blob.jsonLE bundle0.label_encoder),
    (("artifacts", "vectorizer.pkl"), Blob.corrupt),
    (("artifacts", "performance.json"), Blob.jsonPerf bundle0.performance),
    (("model", "model.pkl"), Blob.pickledModel bundle0.model) ]

/-- A state holding one run whose vectorizer artifact is corrupted. -/
def corruptState : TrainState :=
  { store := [("r1", corruptRecord)],
    config := { runIdFile := some "r1", perfFile := none } }

/-- A one-project table. -/
def proj0 : List ProjRow := [{ id := 0, description := "project" }]

/-- A tags table joining 300 labeled rows onto `proj0`. -/
def tags0 : List TagRow := List.replicate 300 { id := 0, tag := some "mlops" }

/-! Helper lemmas. -/

/-- Lookup distributes over list append, preferring the left list. -/
theorem lookupKey_append (l₁ l₂ : List (String × Val)) (k : String) :
    lookupKey (l₁ ++ l₂) k =
      match lookupKey l₁ k with
      | some v => some v
      | none => lookupKey l₂ k := by
  induction l₁ with
  | nil => simp [lookupKey]
  | cons p rest ih =>
    obtain ⟨a, v⟩ := p
    by_cases h : a = k
    · simp [lookupKey, h]
    · simp [lookupKey, h, ih]

/-- Lookup in the overridden copy of the base list. -/
theorem lookupKey_map_override (base ov : ArgumentSet) (k : String) :
    lookupKey (base.map fun p => (p.1, (lookupKey ov p.1).getD p.2)) k =
      match lookupKey base k with
      | some v => some ((lookupKey ov k).getD v)
      | none => none := by
  induction base with
  | nil => simp [lookupKey]
  | cons p rest ih =>
    obtain ⟨a, v⟩ := p
    by_cases h : a = k
    · subst h; simp [lookupKey]
    · simp [lookupKey, h, ih]

/-- Lookup in the override entries whose keys are new to the base list. -/
theorem lookupKey_filter_base (base ov : ArgumentSet) (k : String) :
    lookupKey (ov.filter fun p => (lookupKey base p.1).isNone) k =
      if (lookupKey base k).isNone then lookupKey ov k else none := by
  induction ov with
  | nil => simp [lookupKey]
  | cons p rest ih =>
    obtain ⟨a, v⟩ := p
    rw [List.filter_cons]
    by_cases hb : (lookupKey base a).isNone
    · rw [if_pos (by simpa using hb)]
      by_cases h : a = k
      · subst h; simp [lookupKey, hb]
      · simp [lookupKey, h, ih]
    · rw [if_neg (by simpa using hb)]
      by_cases h : a = k
      · subst h
        rw [ih, lookupKey]
        simp [hb]
      · simp [lookupKey, h, ih]

/-- The dict merge looks values up in the override first, the base second. -/
theorem mergeArgs_lookup (base ov : ArgumentSet) (k : String) :
    lookupKey (mergeArgs base ov) k =
      match lookupKey ov k with
      | some v => some v
      | none => lookupKey base k := by
  rw [mergeArgs, lookupKey_append, lookupKey_map_override, lookupKey_filter_base]
  cases hb : lookupKey base k <;> cases ho : lookupKey ov k <;> simp [hb, ho]

/-- In a list with strictly increasing trial numbers, list position order
implies trial-number order. -/
theorem number_le_of_indexOf_le {l : List Trial}
    (hp : l.Pairwise fun a b => a.number < b.number) {a b : Trial}
    (ha : a ∈ l) (hb : b ∈ l) (h : l.indexOf a ≤ l.indexOf b) :
    a.number ≤ b.number := by
  have hia : l.indexOf a < l.length := List.indexOf_lt_length.2 ha
  have hib : l.indexOf b < l.length := List.indexOf_lt_length.2 hb
  rcases Nat.lt_or_ge (l.indexOf a) (l.indexOf b) with hlt | hge
  · have hR := List.pairwise_iff_getElem.1 hp _ _ hia hib hlt
    rw [List.getElem_indexOf hia, List.getElem_indexOf hib] at hR
    exact Nat.le_of_lt hR
  · have heq : l.indexOf a = l.indexOf b := Nat.le_antisymm h hge
    have hfin : (⟨l.indexOf a, hia⟩ : Fin l.length) = ⟨l.indexOf b, hib⟩ :=
      Fin.ext heq
    have h3 : l.get ⟨l.indexOf a, hia⟩ = l.get ⟨l.indexOf b, hib⟩ :=
      congrArg l.get hfin
    rw [List.get_eq_getElem, List.get_eq_getElem, List.getElem_indexOf hia,
        List.getElem_indexOf hib] at h3
    exact Nat.le_of_eq (congrArg Trial.number h3)

/-! Claim theorems. -/

/-- C1: for every optimization run with at least one completed (non-pruned)
trial, the selected best trial is a completed trial whose ranking-metric (f1)
value is greater than or equal to every completed trial's value, ties
resolving to the lowest trial number, and the arguments written back are
exactly the base arguments with the best trial's sampled parameters merged
over them, the trial's values overriding base values on shared keys. -/
theorem optimize_selects_best (base : ArgumentSet) (ts : List Trial)
    (hnum : ts.Pairwise fun a b => a.number < b.number)
    (hc : ∃ t ∈ ts, t.value.isSome) :
    ∃ b, bestTrial ts = some b ∧ b ∈ completedTrials ts ∧
      (∀ u ∈ completedTrials ts, trialVal u ≤ trialVal b) ∧
      (∀ u ∈ completedTrials ts, trialVal u = trialVal b → b.number ≤ u.number) ∧
      optimize base ts (ts.length : Int) = Except.ok (mergeArgs base b.params) ∧
      (∀ k, lookupKey (mergeArgs base b.params) k =
        match lookupKey b.params k with
        | some v => some v
        | none => lookupKey base k) := by
  obtain ⟨t, ht, htv⟩ := hc
  have htc : t ∈ completedTrials ts := List.mem_filter.2 ⟨ht, htv⟩
  have hne : completedTrials ts ≠ [] := by
    intro h
    rw [h] at htc
    exact absurd htc (List.not_mem_nil t)
  obtain ⟨b, hb⟩ : ∃ b, bestTrial ts = some b := by
    cases h : bestTrial ts with
    | none => exact absurd (List.argmax_eq_none.1 h) hne
    | some b => exact ⟨b, rfl⟩
  have hbm : b ∈ List.argmax trialVal (completedTrials ts) := by
    rw [Option.mem_def]
    exact hb
  have hmem := List.argmax_mem hbm
  have hpC : (completedTrials ts).Pairwise fun a b => a.number < b.number :=
    List.Pairwise.sublist (List.filter_sublist ts) hnum
  refine ⟨b, hb, hmem, ?_, ?_, ?_, ?_⟩
  · exact fun u hu => List.le_of_mem_argmax hu hbm
  · intro u hu hval
    have hidx := List.index_of_argmax hbm hu (le_of_eq hval.symm)
    exact number_le_of_indexOf_le hpC hmem hu hidx
  · have h0 : ((ts.length : Int)).toNat = ts.length := Int.toNat_natCast ts.length
    simp only [optimize, h0, List.take_length, hb]
  · exact fun k => mergeArgs_lookup base b.params k

/-- C1 witness: the result of `optimize_selects_best` on the concrete study
`ts0` over `base0`. -/
theorem optimize_selects_best_witness :
    ∃ b, bestTrial ts0 = some b ∧ b ∈ completedTrials ts0 ∧
      (∀ u ∈ completedTrials ts0, trialVal u ≤ trialVal b) ∧
      (∀ u ∈ completedTrials ts0, trialVal u = trialVal b → b.number ≤ u.number) ∧
      optimize base0 ts0 (ts0.length : Int) = Except.ok (mergeArgs base0 b.params) ∧
      (∀ k, lookupKey (mergeArgs base0 b.params) k =
        match lookupKey b.params k with
        | some v => some v
        | none => lookupKey base0 k) :=
  optimize_selects_best base0 ts0 (by decide) (by decide)

/-- C2: round-trip law — creating a run (with either value of `test_run`) and
then loading artifacts for that run's id returns exactly the persisted bundle:
args and performance equal to what was passed in, and all five members
present and deserialized. -/
theorem run_round_trip (st : TrainState) (b : Bundle) (rid : String)
    (test_run : Bool) (h : rid ≠ "") :
    load_artifacts (train_model st b rid test_run) (some rid) = Except.ok b := by
  have hstore : (train_model st b rid test_run).store =
      (rid, runArtifacts b) :: st.store := by
    cases test_run <;> rfl
  have hres : resolveRunId (train_model st b rid test_run) (some rid) =
      some rid := by
    simp [resolveRunId, h]
  simp only [load_artifacts, hres, loadByRunId, hstore, lookupRun, if_pos]
  simp [runArtifacts, getBlob, parseArgs, parseVec, parseLE, parsePerf,
        parseModel]

/-- C2 witness: round trip of the concrete bundle `bundle0` through run "r1"
starting from the empty state. -/
theorem run_round_trip_witness :
    load_artifacts (train_model emptyState bundle0 "r1" false) (some "r1") =
      Except.ok bundle0 :=
  run_round_trip emptyState bundle0 "r1" false (by decide)

/-- C3: if any of the five bundle members of a stored run is missing or fails
to deserialize, loading that run fails with the corrupt-artifact error and
never returns a bundle. -/
theorem load_corrupt_member (st : TrainState) (rid : String) (r : RunRecord)
    (h0 : rid ≠ "") (h1 : lookupRun st.store rid = some r)
    (h2 : (getBlob r "artifacts" "args.json").bind parseArgs = none ∨
          (getBlob r "artifacts" "vectorizer.pkl").bind parseVec = none ∨
          (getBlob r "artifacts" "label_encoder.json").bind parseLE = none ∨
          (getBlob r "artifacts" "performance.json").bind parsePerf = none ∨
          (getBlob r "model" "model.pkl").bind parseModel = none) :
    load_artifacts st (some rid) = Except.error LoadError.corruptArtifact := by
  have hres : resolveRunId st (some rid) = some rid := by
    simp [resolveRunId, h0]
  simp only [load_artifacts, hres, loadByRunId, h1]
  cases hA : (getBlob r "artifacts" "args.json").bind parseArgs <;>
    cases hV : (getBlob r "artifacts" "vectorizer.pkl").bind parseVec <;>
      cases hE : (getBlob r "artifacts" "label_encoder.json").bind parseLE <;>
        cases hP : (getBlob r "artifacts" "performance.json").bind parsePerf <;>
          cases hM : (getBlob r "model" "model.pkl").bind parseModel <;>
            simp_all

/-- C3 witness: loading the run whose stored vectorizer artifact is corrupted
fails with the corrupt-artifact error. -/
theorem load_corrupt_member_witness :
    load_artifacts corruptState (some "r1") =
      Except.error LoadError.corruptArtifact :=
  load_corrupt_member corruptState "r1" corruptRecord (by decide) rfl
    (Or.inr (Or.inl rfl))

/-- C4: loading artifacts with no explicit run id when the run pointer file
does not exist fails with the not-found error and returns no bundle. -/
theorem load_no_pointer (st : TrainState) (h : st.config.runIdFile = none) :
    load_artifacts st none = Except.error LoadError.notFound := by
  simp [load_artifacts, resolveRunId, h]

/-- C4 witness: loading from the empty state (no pointer file) fails with the
not-found error. -/
theorem load_no_pointer_witness :
    load_artifacts emptyState none = Except.error LoadError.notFound :=
  load_no_pointer emptyState rfl

/-- C5: with the configured `n_startup_trials = 5` and `n_warmup_steps = 5`,
a trial is never pruned before five intermediate reports have been recorded
for it nor before five trials have fully completed; and an eligible trial
(both thresholds met, with comparison values available at its current step)
is pruned exactly when its latest intermediate value is worse than the median
of the previously completed trials' values at the same step. -/
theorem median_pruner_guards (completed : List (List Rat)) (history : List Rat) :
    (shouldPrune 5 5 completed history = true →
      5 ≤ history.length ∧ 5 ≤ completed.length) ∧
    (∀ score, history.getLast? = some score →
      5 ≤ completed.length → 5 ≤ history.length - 1 →
      stepVals completed (history.length - 1) ≠ [] →
      (shouldPrune 5 5 completed history = true ↔
        score < median (stepVals completed (history.length - 1)))) := by
  constructor
  · intro hp
    rw [shouldPrune] at hp
    split at hp
    · exact absurd hp (by simp)
    · split at hp
      · exact absurd hp (by simp)
      · split at hp
        · exact absurd hp (by simp)
        · exact ⟨by omega, by omega⟩
  · intro score hl h5 hw hne
    simp only [shouldPrune, hl]
    rw [if_neg (show ¬ completed.length < 5 by omega),
        if_neg (show ¬ history.length - 1 < 5 by omega),
        if_neg (by simpa using hne)]
    simp

/-- C5 witness: with five completed trials at value 1 over six steps and a
current history of six reports at value 0, pruning triggers, and both
thresholds are indeed met. -/
theorem median_pruner_guards_witness :
    (5 ≤ history0.length ∧ 5 ≤ completed0.length) ∧
    shouldPrune 5 5 completed0 history0 = true :=
  ⟨(median_pruner_guards completed0 history0).1 (by decide),
   ((median_pruner_guards completed0 history0).2 0 (by decide) (by decide)
       (by decide) (by decide)).2 (by decide)⟩

/-- C6 counterexample: invoking `optimize` with `num_trials = 0` does not
fail with the configuration error the claim requires — the study runs zero
trials and the failure surfaced is the no-completed-trials error of the
best-trial selection. -/
theorem optimize_nonpos_counterexample :
    optimize base0 ts0 0 = Except.error OptError.noCompletedTrials ∧
    OptError.noCompletedTrials ≠ OptError.configurationError :=
  ⟨rfl, by decide⟩

/-- C6 (amended): invoking `optimize` with `num_trials ≤ 0` runs no trials
and then fails with the no-completed-trials error raised when the best trial
is selected; no configuration error is produced. -/
theorem optimize_nonpos_error (base : ArgumentSet) (ts : List Trial) (n : Int)
    (h : n ≤ 0) :
    optimize base ts n = Except.error OptError.noCompletedTrials := by
  have h0 : n.toNat = 0 := Int.toNat_of_nonpos h
  simp [optimize, h0, bestTrial, completedTrials]

/-- C6 witness: `optimize` at `num_trials = -5` on the concrete study. -/
theorem optimize_nonpos_error_witness :
    optimize base0 ts0 (-5) = Except.error OptError.noCompletedTrials :=
  optimize_nonpos_error base0 ts0 (-5) (by decide)

/-- C7: a test run leaves the run pointer file and the performance snapshot
unchanged; a non-test run sets them to the new run's id and report; and run
creation itself never touches them. -/
theorem train_model_pointer_frame (st : TrainState) (b : Bundle) (rid : String) :
    (train_model st b rid true).config = st.config ∧
    (train_model st b rid false).config =
      { runIdFile := some rid, perfFile := some b.performance } ∧
    (create_run st b rid).config = st.config :=
  ⟨rfl, rfl, rfl⟩

/-- C8: a persisted run stores its model under the sub-path "model", distinct
from the sub-path "artifacts" holding the four other bundle members, and
reconstructing a bundle needs both sub-paths: a record restricted to either
sub-path alone fails to load. -/
theorem model_logged_separately (b : Bundle) (st : TrainState) (rid : String)
    (h : rid ≠ "") :
    (runArtifacts b).map Prod.fst =
      [("artifacts", "args.json"), ("artifacts", "label_encoder.json"),
       ("artifacts", "vectorizer.pkl"), ("artifacts", "performance.json"),
       ("model", "model.pkl")] ∧
    ("model" : String) ≠ "artifacts" ∧
    load_artifacts
      { st with store :=
          (rid, (runArtifacts b).filter fun e => decide (e.1.1 = "artifacts")) ::
            st.store }
      (some rid) = Except.error LoadError.corruptArtifact ∧
    load_artifacts
      { st with store :=
          (rid, (runArtifacts b).filter fun e => decide (e.1.1 = "model")) ::
            st.store }
      (some rid) = Except.error LoadError.corruptArtifact := by
  refine ⟨rfl, by decide, ?_, ?_⟩ <;>
    simp [load_artifacts, resolveRunId, h, loadByRunId, lookupRun, runArtifacts,
          getBlob, parseArgs, parseVec, parseLE, parsePerf, parseModel]

/-- C8 witness: a record holding only the "artifacts" sub-path members of
`bundle0` (no model) fails to load. -/
theorem model_logged_separately_witness :
    load_artifacts
      { emptyState with store :=
          ("r1", (runArtifacts bundle0).filter fun e =>
            decide (e.1.1 = "artifacts")) :: emptyState.store }
      (some "r1") = Except.error LoadError.corruptArtifact :=
  (model_logged_separately bundle0 emptyState "r1" (by decide)).2.2.1

/-- C9: a falsy run id — the empty string as well as `None` — is treated as
absent by `load_artifacts` and `predict_tag`: both behave exactly as with no
id and fall back to the run pointer file, and with no pointer set the empty
string yields the not-found error instead of being looked up literally. -/
theorem falsy_run_id_fallback (st : TrainState) :
    load_artifacts st (some "") = load_artifacts st none ∧
    predict_tag st (some "") = predict_tag st none ∧
    (st.config.runIdFile = none →
      load_artifacts st (some "") = Except.error LoadError.notFound ∧
      predict_tag st (some "") = Except.error LoadError.notFound) := by
  have hres : resolveRunId st (some "") = resolveRunId st none := by
    simp [resolveRunId]
  refine ⟨?_, ?_, ?_⟩
  · simp only [load_artifacts, hres]
  · simp only [predict_tag, hres]
  · intro h
    constructor <;> simp [load_artifacts, predict_tag, resolveRunId, h]

/-- C9 witness: on the empty state (no pointer file, and in particular no run
stored under the empty-string id) the empty-string run id fails with the
not-found error for both entry points. -/
theorem falsy_run_id_fallback_witness :
    load_artifacts emptyState (some "") = Except.error LoadError.notFound ∧
    predict_tag emptyState (some "") = Except.error LoadError.notFound :=
  (falsy_run_id_fallback emptyState).2.2 rfl

/-- C10: for a merged dataset with at least 300 labeled rows, `elt_data`
splits the labeled rows (rows with a non-null tag after joining projects and
tags on id) into exactly the last 300 rows as the test file and all earlier
rows as the training file, every labeled row landing in exactly one of the
two (counted with multiplicity). -/
theorem elt_data_split (projects : List ProjRow) (tags : List TagRow)
    (h : 300 ≤ (labeledRows projects tags).length) :
    (elt_data projects tags).1 ++ (elt_data projects tags).2 =
      labeledRows projects tags ∧
    (elt_data projects tags).1 =
      (labeledRows projects tags).take
        ((labeledRows projects tags).length - 300) ∧
    (elt_data projects tags).2 =
      (labeledRows projects tags).drop
        ((labeledRows projects tags).length - 300) ∧
    ((elt_data projects tags).2).length = 300 ∧
    ∀ r : ProjRow × TagRow,
      ((elt_data projects tags).1).count r +
        ((elt_data projects tags).2).count r =
          (labeledRows projects tags).count r := by
  have hk : (((labeledRows projects tags).length : Int) + (-300)).toNat =
      (labeledRows projects tags).length - 300 := by omega
  have h1 : (elt_data projects tags).1 =
      (labeledRows projects tags).take
        ((labeledRows projects tags).length - 300) := by
    simp [elt_data, sliceTo, hk]
  have h2 : (elt_data projects tags).2 =
      (labeledRows projects tags).drop
        ((labeledRows projects tags).length - 300) := by
    simp [elt_data, sliceFrom, hk]
  refine ⟨?_, h1, h2, ?_, ?_⟩
  · rw [h1, h2]
    exact List.take_append_drop _ _
  · rw [h2, List.length_drop]
    omega
  · intro r
    rw [h1, h2, ← List.count_append, List.take_append_drop]

set_option maxRecDepth 8000 in
/-- C10 witness: one project joined with 300 tagged rows gives exactly 300
labeled rows, all of which land in the test file. -/
theorem elt_data_split_witness :
    ((elt_data proj0 tags0).2).length = 300 :=
  (elt_data_split proj0 tags0 (by decide)).2.2.2.1

end Tagifai
